import Mathlib

/-!
Verification of the analyze API route of the UGAHacks scam-analysis app.

The definitions below are a shallow embedding of the TypeScript source of
the main analyze route (the variant with RAG support) and its helpers:
`verdictFromScore`, `findSpans`, `extractSignals`, `buildAttackTypesHeuristic`,
the advice composers, the fallback/blended result builders of `POST`, and the
kind-mismatch detection.  Text is modelled as `List Char` (JavaScript strings
indexed by code unit).  Two distinct case operations of the source are
modelled separately: `jsToLower` embeds an explicit `text.toLowerCase()`
copy (Unicode full lowercasing, which can change the length: U+0130 expands
to `i` + U+0307), while `foldLower` models the regex `/i` flag, which
compares case-insensitively in place and never shifts offsets.  The
JavaScript regular expressions used by the route are hand-compiled into
explicit backtracking matchers with the same alternative order and greediness.
-/

/-- Apostrophe character (U+0027), written by code point. -/
def apoC : Char := Char.ofNat 39

/-- Case folding used to model the regex `/i` flag: the flag compares
case-insensitively in place, without changing string offsets; per-character
ASCII folding is exact for the ASCII-only patterns of this route. -/
def foldLower (l : List Char) : List Char := l.map Char.toLower

/-- Unicode combining dot above (U+0307), written by code point. -/
def dotAbove : Char := Char.ofNat 775

/-- Latin capital letter I with dot above (U+0130), written by code point. -/
def capIDot : Char := Char.ofNat 304

/-- JavaScript `toLowerCase` of one character, the Unicode full lowercase
mapping: U+0130 expands to the two code units `i` + U+0307; every other
character maps one-to-one (ASCII lowering here — the remaining non-ASCII
one-to-one mappings cannot affect the ASCII-only dictionaries). -/
def jsLowerChar (c : Char) : List Char :=
  if c = capIDot then ['i', dotAbove] else [c.toLower]

/-- JavaScript `text.toLowerCase()`: the concatenation of the per-character
full lowercase mappings; its length can exceed the original's. -/
def jsToLower (l : List Char) : List Char := (l.map jsLowerChar).flatten

/-- `startsWithL needle hay` iff `needle` is a prefix of `hay`. -/
def startsWithL : List Char → List Char → Bool
  | [], _ => true
  | a :: xs, hay =>
    match hay with
    | b :: ys => a = b && startsWithL xs ys
    | [] => false

/-- JavaScript `hay.includes(needle)`: substring containment. -/
def containsStr (hay needle : List Char) : Bool :=
  (List.range (hay.length + 1)).any fun i => startsWithL needle (hay.drop i)

/-- Regex word character `[A-Za-z0-9_]`. -/
def isWordChar (c : Char) : Bool := c.isAlphanum || c = '_'

/-- Word-character-ness of the character at index `i` (`false` out of range). -/
def wordAt (l : List Char) (i : Nat) : Bool :=
  match l.get? i with
  | some c => isWordChar c
  | none => false

/-- Word-character-ness of the character just before index `i`. -/
def prevWordAt (l : List Char) (i : Nat) : Bool :=
  if i = 0 then false else wordAt l (i - 1)

/-- Regex `\b` holds between positions `i-1` and `i`. -/
def boundaryAt (l : List Char) (i : Nat) : Bool :=
  prevWordAt l i != wordAt l i

/-- Character admitted by the regex class `[^\s)]` (ASCII whitespace model). -/
def isUrlChar (c : Char) : Bool := !(c.isWhitespace || c = ')')

/-- Character admitted by the regex class `[a-zA-Z0-9.-]` (after lowering). -/
def isDomChar (c : Char) : Bool := c.isAlphanum || c = '.' || c = '-'

/-- ASCII letter, the class `[a-zA-Z]` (after lowering). -/
def isAsciiAlpha (c : Char) : Bool := c.isAlpha

/-! ## Span locator (`findSpans`) -/

/-- A highlighted span; `stop` is the exclusive end index (`end` in the source). -/
structure Span where
  start : Nat
  stop : Nat
  label : List Char
  reason : List Char
deriving DecidableEq

/-- One entry of the fixed span-phrase dictionary. -/
structure SpanPhrase where
  label : List Char
  phrase : List Char
  reason : List Char
deriving DecidableEq

/-- Search loop of `indexOf`: try each suffix in turn, returning the
position of the first one that starts with `needle`. -/
def indexOfAux (needle : List Char) : List Char → Nat → Option Nat
  | [], pos => if startsWithL needle [] then some pos else none
  | c :: t, pos =>
    if startsWithL needle (c :: t) then some pos
    else indexOfAux needle t (pos + 1)

/-- JavaScript `lower.indexOf(needle, idx)`: least index `≥ idx` at which
`needle` occurs in `hay` (`none` if there is none). -/
def indexOfFrom (hay needle : List Char) (idx : Nat) : Option Nat :=
  if idx ≤ hay.length then indexOfAux needle (hay.drop idx) idx else none

/-- The inner `while` loop of `findSpans` for one phrase: repeatedly search
from `idx`, pushing a span per occurrence.  `remaining` is the number of
spans that may still be pushed before the global cap of 40 is reached
(`40 - spans.length` in the source, always positive at a call); the push
that exhausts it triggers the source's `spans.length >= 40` early return,
reported here by the `true` flag. -/
def phraseSpans (lower needle label reason : List Char) :
    Nat → Nat → List Span × Bool
  | _, 0 => ([], true)
  | idx, remaining + 1 =>
    match indexOfFrom lower needle idx with
    | none => ([], false)
    | some found =>
      let sp : Span := ⟨found, found + needle.length, label, reason⟩
      if remaining = 0 then ([sp], true)
      else
        let r := phraseSpans lower needle label reason
          (found + needle.length) remaining
        (sp :: r.1, r.2)

/-- The outer `for` loop of `findSpans` over the phrase dictionary,
threading the remaining capacity. -/
def findSpansAux (lower : List Char) : List SpanPhrase → Nat → List Span
  | [], _ => []
  | p :: rest, remaining =>
    let r := phraseSpans lower (jsToLower p.phrase) p.label p.reason 0
      remaining
    if r.2 then r.1
    else r.1 ++ findSpansAux lower rest (remaining - r.1.length)

/-- `findSpans(text, phrases)` from the analyze route: for each phrase,
case-insensitive repeated substring search resuming at the previous match
end, all spans collected into one list capped at 40. -/
def findSpans (text : List Char) (phrases : List SpanPhrase) : List Span :=
  findSpansAux (jsToLower text) phrases 40

/-- The fixed `spanPhrases` dictionary of the analyze route. -/
def spanPhrases : List SpanPhrase :=
  [ ⟨"Urgency".toList, "urgent".toList, "High-pressure wording.".toList⟩,
    ⟨"Urgency".toList, "immediately".toList, "Pushes fast action.".toList⟩,
    ⟨"Authority".toList, "bank".toList,
      "Impersonation of a trusted org.".toList⟩,
    ⟨"Authority".toList, "irs".toList,
      "Common authority-scam pattern.".toList⟩,
    ⟨"Tech Trick".toList, "verification code".toList,
      "Never share one-time codes.".toList⟩,
    ⟨"Tech Trick".toList, "otp".toList,
      "One-time codes enable takeovers.".toList⟩,
    ⟨"Viral".toList, "link in bio".toList,
      "Common social bait phrase.".toList⟩,
    ⟨"Viral".toList,
      "share before it".toList ++ [apoC] ++ "s deleted".toList,
      "Virality pressure tactic.".toList⟩,
    ⟨"Money Claim".toList, "double your money".toList,
      "Too-good-to-be-true money promise.".toList⟩ ]

/-! ## Verdict mapping -/

/-- The three verdict levels of the response schema. -/
inductive Verdict where
  | harmless
  | suspicious
  | dangerous
deriving DecidableEq

/-- `verdictFromScore` from the analyze route. -/
def verdictFromScore (score : Int) : Verdict :=
  if score ≥ 70 then .dangerous
  else if score ≥ 35 then .suspicious
  else .harmless

/-! ## Hand-compiled regex matchers

The three entity-extraction regexes of `extractSignals` are compiled into
explicit matchers over the lowered text (`/i` flag; the phone regex contains
no letters so lowering is irrelevant to it).  Each matcher returns the length
of the leftmost-greedy match at position `i`, with the same alternative order
and backtracking behaviour as the JavaScript engine. -/

/-- Optional `(?:\/[^\s)]+)?` suffix: length contributed at position `j`. -/
def pathLenAt (l : List Char) (j : Nat) : Nat :=
  if l.get? j = some '/' then
    let n := ((l.drop (j + 1)).takeWhile isUrlChar).length
    if n = 0 then 0 else 1 + n
  else 0

/-- Alternative `https?:\/\/[^\s)]+` of the URL regex. -/
def alt1At (l : List Char) (i : Nat) : Option Nat :=
  let s := l.drop i
  if startsWithL "https://".toList s then
    let n := ((s.drop 8).takeWhile isUrlChar).length
    if n = 0 then none else some (8 + n)
  else if startsWithL "http://".toList s then
    let n := ((s.drop 7).takeWhile isUrlChar).length
    if n = 0 then none else some (7 + n)
  else none

/-- Backtracking for `[a-zA-Z0-9.-]+\.[a-zA-Z]{2,}`: try the largest split
`kk ≤ runLen` at which a literal dot is followed by at least two letters. -/
def alt2TryDot (l : List Char) (i : Nat) : Nat → Option Nat
  | 0 => none
  | k + 1 =>
    let kk := k + 1
    if l.get? (i + kk) = some '.' then
      let m := ((l.drop (i + kk + 1)).takeWhile isAsciiAlpha).length
      if 2 ≤ m then some (kk + 1 + m + pathLenAt l (i + kk + 1 + m))
      else alt2TryDot l i k
    else alt2TryDot l i k

/-- Alternative `\b[a-zA-Z0-9.-]+\.[a-zA-Z]{2,}(?:\/[^\s)]+)?`. -/
def alt2At (l : List Char) (i : Nat) : Option Nat :=
  if boundaryAt l i then
    let runLen := ((l.drop i).takeWhile isDomChar).length
    if runLen = 0 then none else alt2TryDot l i runLen
  else none

/-- Alternative `\bbit\.ly\/[^\s)]+`. -/
def alt3At (l : List Char) (i : Nat) : Option Nat :=
  if boundaryAt l i && startsWithL "bit.ly/".toList (l.drop i) then
    let n := ((l.drop (i + 7)).takeWhile isUrlChar).length
    if n = 0 then none else some (7 + n)
  else none

/-- The URL regex of `extractSignals`, alternatives in source order. -/
def urlMatchAt (l : List Char) (i : Nat) : Option Nat :=
  match alt1At l i with
  | some n => some n
  | none =>
    match alt2At l i with
    | some n => some n
    | none => alt3At l i

/-- Character class `[A-Z0-9._%+-]` (lowered) of the email regex. -/
def isEmailLocalChar (c : Char) : Bool :=
  c.isAlphanum || c = '.' || c = '_' || c = '%' || c = '+' || c = '-'

/-- Backtracking for `[A-Z0-9.-]+\.[A-Z]{2,}\b` after the `@`; returns the
absolute end position of the whole match. -/
def emailTryDot (l : List Char) (d : Nat) : Nat → Option Nat
  | 0 => none
  | k + 1 =>
    let kk := k + 1
    if l.get? (d + kk) = some '.' then
      let m := ((l.drop (d + kk + 1)).takeWhile isAsciiAlpha).length
      if 2 ≤ m && !(wordAt l (d + kk + 1 + m)) then some (d + kk + 1 + m)
      else emailTryDot l d k
    else emailTryDot l d k

/-- The email regex `\b[A-Z0-9._%+-]+@[A-Z0-9.-]+\.[A-Z]{2,}\b`. -/
def emailMatchAt (l : List Char) (i : Nat) : Option Nat :=
  if boundaryAt l i then
    let r1 := ((l.drop i).takeWhile isEmailLocalChar).length
    if r1 = 0 then none
    else if l.get? (i + r1) = some '@' then
      let d := i + r1 + 1
      let r2 := ((l.drop d).takeWhile isDomChar).length
      if r2 = 0 then none
      else
        match emailTryDot l d r2 with
        | some e => some (e - i)
        | none => none
    else none
  else none

/-- Separator class `[\s.-]` of the phone regex. -/
def isSepChar (c : Char) : Bool := c.isWhitespace || c = '.' || c = '-'

/-- `n` digits starting at position `i`. -/
def digitRunAt (l : List Char) (i n : Nat) : Bool :=
  decide (i + n ≤ l.length) && ((l.drop i).take n).all Char.isDigit

/-- Separator character at position `i`. -/
def isSepAt (l : List Char) (i : Nat) : Bool :=
  match l.get? i with
  | some c => isSepChar c
  | none => false

/-- Whitespace character at position `i`. -/
def isWsAt (l : List Char) (i : Nat) : Bool :=
  match l.get? i with
  | some c => c.isWhitespace
  | none => false

/-- Tail `\d{3}[\s.-]?\d{4}` of the phone regex; returns the end position. -/
def phTail (l : List Char) (j : Nat) : Option Nat :=
  if digitRunAt l j 3 then
    let j3 := j + 3
    if isSepAt l j3 && digitRunAt l (j3 + 1) 4 then some (j3 + 1 + 4)
    else if digitRunAt l j3 4 then some (j3 + 4)
    else none
  else none

/-- Optional separator `[\s.-]?` before the tail (greedy, with fallback). -/
def phSepTail (l : List Char) (k : Nat) : Option Nat :=
  match (if isSepAt l k then phTail l (k + 1) else none) with
  | some e => some e
  | none => phTail l k

/-- Optional `\)?` before the separator (greedy, with fallback). -/
def phClose (l : List Char) (k : Nat) : Option Nat :=
  match (if l.get? k = some ')' then phSepTail l (k + 1) else none) with
  | some e => some e
  | none => phSepTail l k

/-- Group `(\(?\d{3}\)?[\s.-]?)` followed by the tail. -/
def phG2 (l : List Char) (j : Nat) : Option Nat :=
  match
    (if l.get? j = some '(' && digitRunAt l (j + 1) 3 then phClose l (j + 4)
     else none) with
  | some e => some e
  | none => if digitRunAt l j 3 then phClose l (j + 3) else none

/-- Optional `\s?` at the end of the first phone group. -/
def phWs (l : List Char) (k : Nat) : Option Nat :=
  match (if isWsAt l k then phG2 l (k + 1) else none) with
  | some e => some e
  | none => phG2 l k

/-- `\d{1,2}\s?` (greedy: two digits before one) followed by the rest. -/
def phD12 (l : List Char) (j : Nat) : Option Nat :=
  match (if digitRunAt l j 2 then phWs l (j + 2) else none) with
  | some e => some e
  | none => if digitRunAt l j 1 then phWs l (j + 1) else none

/-- The phone regex `(\+?\d{1,2}\s?)?(\(?\d{3}\)?[\s.-]?)\d{3}[\s.-]?\d{4}`. -/
def phoneMatchAt (l : List Char) (i : Nat) : Option Nat :=
  match (if l.get? i = some '+' then phD12 l (i + 1) else none) with
  | some e => some (e - i)
  | none =>
    match phD12 l i with
    | some e => some (e - i)
    | none =>
      match phG2 l i with
      | some e => some (e - i)
      | none => none

/-- `String.prototype.matchAll` scanning: leftmost matches, resuming after
each match (a zero-length match would advance by one, as in JavaScript).
The position advances by at least one per step and scanning stops past the
end of the text, so a fuel of `l.length + 1` steps never runs out. -/
def scanAux (matchAt : List Char → Nat → Option Nat) (l : List Char) :
    Nat → Nat → List (Nat × Nat)
  | _, 0 => []
  | i, fuel + 1 =>
    if i ≤ l.length then
      match matchAt l i with
      | some n => (i, n) :: scanAux matchAt l (i + max n 1) fuel
      | none => scanAux matchAt l (i + 1) fuel
    else []

/-- All matches of a regex over `l`, in position order. -/
def scanMatches (matchAt : List Char → Nat → Option Nat) (l : List Char) :
    List (Nat × Nat) :=
  scanAux matchAt l 0 (l.length + 1)

/-- Substring of `text` of length `n` starting at `i`. -/
def sliceL (text : List Char) (i n : Nat) : List Char := (text.drop i).take n

/-- `Array.from(text.matchAll(re)).map(m => m[0])`: the matched substrings of
the original (non-lowered) text, found on the lowered text. -/
def regexMatches (matchAt : List Char → Nat → Option Nat)
    (text : List Char) : List (List Char) :=
  (scanMatches matchAt (foldLower text)).map fun p => sliceL text p.1 p.2

/-! ## Signal extractor (`extractSignals`) -/

/-- One detected tactic of the response schema. -/
structure Tactic where
  name : List Char
  confidence : ℚ
  explanation : List Char
  evidence : List (List Char)
deriving DecidableEq

/-- The `extracted` entity lists of the response schema. -/
structure Extracted where
  urls : List (List Char)
  phone_numbers : List (List Char)
  emails : List (List Char)
deriving DecidableEq

/-- Return value of `extractSignals`. -/
structure Signals where
  urls : List (List Char)
  emails : List (List Char)
  phone_numbers : List (List Char)
  heuristic_score : Nat
  heuristic_tactics : List Tactic
  suspicious_spans : List Span
deriving DecidableEq

/-- Urgency trigger phrases. -/
def urgencyList : List (List Char) :=
  ["act now", "urgent", "immediately", "within 24 hours", "final notice",
   "asap", "last chance"].map String.toList

/-- Fear trigger phrases. -/
def fearList : List (List Char) :=
  ["legal action", "account suspended", "locked", "security alert",
   "warrant", "police", "breach"].map String.toList

/-- Authority trigger phrases. -/
def authorityList : List (List Char) :=
  ["irs", "bank", "support", "microsoft", "apple", "payroll", "hr", "ceo",
   "admin", "it team"].map String.toList

/-- Money trigger phrases. -/
def moneyList : List (List Char) :=
  ["gift card", "wire", "bitcoin", "crypto", "payment", "invoice", "refund",
   "owe", "transfer"].map String.toList

/-- One-time-code trigger phrases. -/
def otpList : List (List Char) :=
  ["verification code", "otp", "2fa", "send the code", "one-time code",
   "code we sent"].map String.toList

/-- Reward trigger phrases. -/
def rewardList : List (List Char) :=
  ["winner", "free", "bonus", "claim", "prize", "reward"].map String.toList

/-- Credential trigger phrases. -/
def credList : List (List Char) :=
  ["password", "login", "sign in", "reset", "verify your account",
   "confirm your identity"].map String.toList

/-- Attachment trigger phrases. -/
def attachmentList : List (List Char) :=
  ["attachment", "invoice attached", "open the file", ".zip", ".html",
   ".iso", ".exe", ".docm"].map String.toList

/-- Viral / social bait trigger phrases (both apostrophe variants appear in
the source; the ASCII apostrophe is written via `apoC`). -/
def viralList : List (List Char) :=
  [ "share before it".toList ++ [apoC] ++ "s deleted".toList,
    "share before it’s deleted".toList,
    "they don’t want you to know".toList,
    "they don".toList ++ [apoC] ++ "t want you to know".toList,
    "link in bio".toList,
    "repost".toList,
    "share now".toList,
    "before it".toList ++ [apoC] ++ "s removed".toList,
    "before it’s removed".toList ]

/-- Get-rich-quick trigger phrases. -/
def getRichList : List (List Char) :=
  ["double your money", "guaranteed returns", "overnight", "miracle trick",
   "get rich quick"].map String.toList

/-- `list.filter(has)` with `has(s) = lower.includes(s)`. -/
def hitsOf (lower : List Char) (phrases : List (List Char)) :
    List (List Char) :=
  phrases.filter fun p => containsStr lower p

/-- The shortened-link test `/bit\.ly|tinyurl|t\.co/i.test(u)`. -/
def isShortenedUrl (u : List Char) : Bool :=
  containsStr (foldLower u) "bit.ly".toList ||
  containsStr (foldLower u) "tinyurl".toList ||
  containsStr (foldLower u) "t.co".toList

/-- `extractSignals` from the analyze route. -/
def extractSignals (text : List Char) : Signals :=
  let urls := (regexMatches urlMatchAt text).take 40
  let emails := (regexMatches emailMatchAt text).take 40
  let phone_numbers := (regexMatches phoneMatchAt text).take 40
  let lower := jsToLower text
  let urgencyHits := hitsOf lower urgencyList
  let fearHits := hitsOf lower fearList
  let authorityHits := hitsOf lower authorityList
  let moneyHits := hitsOf lower moneyList
  let otpHits := hitsOf lower otpList
  let rewardHits := hitsOf lower rewardList
  let credHits := hitsOf lower credList
  let attachmentHits := hitsOf lower attachmentList
  let viralHits := hitsOf lower viralList
  let getRichHits := hitsOf lower getRichList
  let score :=
    (if urls.length ≠ 0 then 16 else 0) +
    (if urls.any isShortenedUrl then 10 else 0) +
    (if moneyHits.length ≠ 0 then 16 else 0) +
    (if otpHits.length ≠ 0 then 26 else 0) +
    (if credHits.length ≠ 0 then 18 else 0) +
    (if urgencyHits.length ≠ 0 then 10 else 0) +
    (if fearHits.length ≠ 0 then 10 else 0) +
    (if authorityHits.length ≠ 0 then 7 else 0) +
    (if rewardHits.length ≠ 0 then 10 else 0) +
    (if attachmentHits.length ≠ 0 then 10 else 0) +
    (if viralHits.length ≠ 0 then 22 else 0) +
    (if getRichHits.length ≠ 0 then 22 else 0)
  let score := min 100 score
  let tacticsBase : List Tactic :=
    (if urgencyHits.length ≠ 0 then
      [⟨"Urgency".toList, 80,
        "Deadlines and pressure reduce careful checking.".toList,
        urgencyHits.take 3⟩] else []) ++
    (if fearHits.length ≠ 0 then
      [⟨"Fear".toList, 78,
        "Threat language pushes panic decisions.".toList,
        fearHits.take 3⟩] else []) ++
    (if authorityHits.length ≠ 0 then
      [⟨"Authority".toList, 72,
        "Impersonation of trusted roles/orgs increases compliance.".toList,
        authorityHits.take 3⟩] else []) ++
    (if moneyHits.length ≠ 0 then
      [⟨"Financial Hook".toList, 82,
        "Payment/refund/gift card themes are common scam patterns.".toList,
        moneyHits.take 3⟩] else []) ++
    (if otpHits.length ≠ 0 then
      [⟨"Code Theft".toList, 92,
        "Requests for OTP/MFA codes are a major takeover indicator.".toList,
        otpHits.take 3⟩] else []) ++
    (if credHits.length ≠ 0 then
      [⟨"Credential Harvest".toList, 86,
        "Attempts to steal logins via fake verification/reset.".toList,
        credHits.take 3⟩] else []) ++
    (if attachmentHits.length ≠ 0 then
      [⟨"Attachment Lure".toList, 75,
        "Attachments are a common malware delivery method.".toList,
        attachmentHits.take 3⟩] else []) ++
    (if viralHits.length ≠ 0 then
      [⟨"Virality / Engagement Bait".toList, 85,
        "Uses viral language to pressure sharing without verification.".toList,
        viralHits.take 3⟩] else []) ++
    (if getRichHits.length ≠ 0 then
      [⟨"Too-Good-To-Be-True Money Claim".toList, 88,
        "Promises fast/guaranteed money — a common fraud pattern.".toList,
        getRichHits.take 3⟩] else [])
  let tactics :=
    if tacticsBase.length = 0 then
      [⟨"Low Signal".toList, 60,
        "No strong scam markers detected.".toList, []⟩]
    else tacticsBase
  let suspicious_spans := findSpans text spanPhrases
  ⟨urls, emails, phone_numbers, score, tactics, suspicious_spans⟩

/-- The presence indicator of each scored category, in scoring order. -/
structure SignalFlags where
  hasUrls : Bool
  hasShort : Bool
  hasMoney : Bool
  hasOtp : Bool
  hasCred : Bool
  hasUrgency : Bool
  hasFear : Bool
  hasAuthority : Bool
  hasReward : Bool
  hasAttachment : Bool
  hasViral : Bool
  hasGetRich : Bool
deriving DecidableEq

/-- Which categories of `extractSignals` are triggered by `text`. -/
def signalFlags (text : List Char) : SignalFlags :=
  let urls := (regexMatches urlMatchAt text).take 40
  let lower := jsToLower text
  ⟨urls.length ≠ 0,
   urls.any isShortenedUrl,
   (hitsOf lower moneyList).length ≠ 0,
   (hitsOf lower otpList).length ≠ 0,
   (hitsOf lower credList).length ≠ 0,
   (hitsOf lower urgencyList).length ≠ 0,
   (hitsOf lower fearList).length ≠ 0,
   (hitsOf lower authorityList).length ≠ 0,
   (hitsOf lower rewardList).length ≠ 0,
   (hitsOf lower attachmentList).length ≠ 0,
   (hitsOf lower viralList).length ≠ 0,
   (hitsOf lower getRichList).length ≠ 0⟩

/-- The score computed from category presence alone, as in the source:
each category contributes its fixed weight once, clamped at 100. -/
def scoreOfFlags (f : SignalFlags) : Nat :=
  min 100
    ((if f.hasUrls then 16 else 0) +
     (if f.hasShort then 10 else 0) +
     (if f.hasMoney then 16 else 0) +
     (if f.hasOtp then 26 else 0) +
     (if f.hasCred then 18 else 0) +
     (if f.hasUrgency then 10 else 0) +
     (if f.hasFear then 10 else 0) +
     (if f.hasAuthority then 7 else 0) +
     (if f.hasReward then 10 else 0) +
     (if f.hasAttachment then 10 else 0) +
     (if f.hasViral then 22 else 0) +
     (if f.hasGetRich then 22 else 0))

/-! ## Attack-type classifier (`buildAttackTypesHeuristic`) -/

/-- One attack-type tag of the response schema. -/
structure AttackType where
  tag : List Char
  confidence : ℚ
  rationale : List Char
deriving DecidableEq

/-- `re.test(text)` for a word-bounded alternation `\b(p1|...|pn)\b` with the
`/i` flag: some alternative occurs with `\b` on both sides (on lowered text). -/
def regexWordTest (lower : List Char) (alts : List (List Char)) : Bool :=
  alts.any fun p =>
    (List.range (lower.length + 1)).any fun i =>
      startsWithL p (lower.drop i) && boundaryAt lower i &&
        boundaryAt lower (i + p.length)

/-- Alternatives of the `hasCred` test. -/
def credWb : List (List Char) :=
  ["password", "login", "sign in", "verify your account", "reset",
   "confirm your identity"].map String.toList

/-- Alternatives of the `hasOtp` test. -/
def otpWb : List (List Char) :=
  ["otp", "verification code", "one-time code", "2fa", "mfa",
   "code we sent"].map String.toList

/-- Alternatives of the `hasMoney` test. -/
def moneyWb : List (List Char) :=
  ["gift card", "wire", "bank transfer", "invoice", "payment", "crypto",
   "bitcoin"].map String.toList

/-- Alternatives of the `hasImpersonation` test. -/
def impersonationWb : List (List Char) :=
  ["hr", "payroll", "it", "helpdesk", "admin", "ceo", "cfo", "finance",
   "bank", "support"].map String.toList

/-- Alternatives of the `hasAttachment` test. -/
def attachmentWb : List (List Char) :=
  ["attachment", ".zip", ".html", ".iso", ".exe", ".docm"].map String.toList

/-- Alternatives of the `hasVirality` test (apostrophe variants expanded from
`it'?s` and `don[’']t`). -/
def viralityWb : List (List Char) :=
  [ "link in bio".toList,
    "share before it".toList ++ [apoC] ++ "s deleted".toList,
    "share before its deleted".toList,
    "they don’t want you to know".toList,
    "they don".toList ++ [apoC] ++ "t want you to know".toList,
    "repost".toList,
    "share now".toList,
    "viral".toList ]

/-- Alternatives of the `hasGetRich` test. -/
def getRichWb : List (List Char) :=
  ["double your money", "guaranteed returns", "overnight", "miracle trick",
   "get rich quick"].map String.toList

/-- Message kinds accepted by the body schema. -/
inductive Kind where
  | text
  | email
  | social
deriving DecidableEq

/-- Email modes accepted by the body schema. -/
inductive EmailMode where
  | personal
  | work
deriving DecidableEq

/-- One step of the `Map`-based dedup: keep the first-inserted position of a
tag, replacing its value only by one of strictly higher confidence. -/
def upsertTag (m : List AttackType) (t : AttackType) : List AttackType :=
  if m.any fun x => decide (x.tag = t.tag) then
    m.map fun x => if x.tag = t.tag ∧ x.confidence < t.confidence then t else x
  else m ++ [t]

/-- The `new Map()` dedup loop of `buildAttackTypesHeuristic`. -/
def dedupByTag (l : List AttackType) : List AttackType :=
  l.foldl upsertTag []

/-- `.sort((a, b) => b.confidence - a.confidence)`: stable descending sort. -/
def sortByConfDesc (l : List AttackType) : List AttackType :=
  l.mergeSort fun a b => decide (b.confidence ≤ a.confidence)

/-- `buildAttackTypesHeuristic` from the analyze route. -/
def buildAttackTypesHeuristic (kind : Kind) (text : List Char)
    (urls : List (List Char)) : List AttackType :=
  let lower := foldLower text
  let hasCred := regexWordTest lower credWb
  let hasOtp := regexWordTest lower otpWb
  let hasMoney := regexWordTest lower moneyWb
  let hasImpersonation := regexWordTest lower impersonationWb
  let hasAttachment := regexWordTest lower attachmentWb
  let hasVirality := regexWordTest lower viralityWb
  let hasGetRich := regexWordTest lower getRichWb
  let tags : List AttackType :=
    (if kind = Kind.email ∨ kind = Kind.text then
      (if hasCred || hasOtp || urls.length ≠ 0 then
        [⟨"phishing".toList,
          min 95 (55 + (if hasOtp then (30 : ℚ) else 0) +
            (if hasCred then 20 else 0) +
            (if urls.length ≠ 0 then 10 else 0)),
          "Tries to get you to click/login/share secrets.".toList⟩]
       else []) ++
      (if hasImpersonation then
        [⟨"pretexting".toList, 80,
          "Pretends to be a trusted role/org to make you comply.".toList⟩]
       else []) ++
      (if hasMoney && hasImpersonation then
        [⟨"BEC / CEO fraud".toList, 85,
          "Authority + payment request pattern.".toList⟩]
       else []) ++
      (if hasAttachment then
        [⟨"malware lure".toList, 75,
          "Attachment-driven delivery is a common malware vector.".toList⟩]
       else []) ++
      (if hasOtp then
        [⟨"code theft".toList, 90,
          "Requests for OTP/MFA codes are a major takeover indicator.".toList⟩]
       else []) ++
      (if hasCred then
        [⟨"credential harvesting".toList, 84,
          "Attempts to capture logins via fake verification/reset.".toList⟩]
       else []) ++
      (if hasVirality || hasGetRich then
        [⟨"spam / engagement bait".toList, 85,
          "Viral bait / get-rich-quick content is high-risk spam.".toList⟩]
       else [])
     else []) ++
    (if kind = Kind.social then
      (if hasVirality then
        [⟨"misinformation / engagement bait".toList, 85,
          "Uses virality pressure and vague claims to drive shares.".toList⟩]
       else []) ++
      (if hasGetRich then
        [⟨"investment fraud / get-rich-quick".toList, 84,
          "Promises of quick money are common fraud patterns.".toList⟩]
       else [])
     else [])
  (sortByConfDesc (dedupByTag tags)).take 6

/-! ## POST handler: mismatch detection, score pipeline, result builders -/

/-- The parsed request body (the unused `senderEmail` field is omitted). -/
structure AnalyzeRequest where
  kind : Kind
  text : List Char
  emailMode : Option EmailMode
deriving DecidableEq

/-- Suffixes of the text starting right after a line terminator, modelling
the positions at which a multiline `^` can match. -/
def tailsAfterNewlines : List Char → List (List Char)
  | [] => []
  | c :: rest =>
    if c = '\n' ∨ c = '\r' then rest :: tailsAfterNewlines rest
    else tailsAfterNewlines rest

/-- The header prefixes of the email-likeness regex (case-sensitive: the
source regex has the `m` flag but not `i`). -/
def headerStarts : List (List Char) :=
  ["subject:", "from:", "to:", "date:", "cc:"].map String.toList

/-- `/(^subject:)|(^from:)|(^to:)|(^date:)|(^cc:)/m.test(text) || /@/.test(text)`. -/
def looksLikeEmail (text : List Char) : Bool :=
  ((text :: tailsAfterNewlines text).any fun s =>
    headerStarts.any fun p => startsWithL p s) ||
  text.any fun c => c = '@'

/-- Alternatives of the social-likeness regex (apostrophe variants expanded
from `it'?s` and `don[’']t`; `/i` flag). -/
def socialBaitList : List (List Char) :=
  [ "link in bio".toList,
    "share before it".toList ++ [apoC] ++ "s deleted".toList,
    "share before its deleted".toList,
    "they don’t want you to know".toList,
    "they don".toList ++ [apoC] ++ "t want you to know".toList,
    "repost".toList,
    "viral".toList,
    "double your money".toList,
    "miracle trick".toList ]

/-- The social-likeness test of the analyze route. -/
def looksLikeSocial (text : List Char) : Bool :=
  socialBaitList.any fun p => containsStr (foldLower text) p

/-- `kindMismatch = body.kind === "email" && !looksLikeEmail && looksLikeSocial`. -/
def kindMismatch (req : AnalyzeRequest) : Bool :=
  (match req.kind with | Kind.email => true | _ => false) &&
  !looksLikeEmail req.text && looksLikeSocial req.text

/-- JavaScript `Math.round` (half away from zero is half up on the
non-negative values that occur here). -/
def jsRound (q : ℚ) : ℤ := ⌊q + 1 / 2⌋

/-- The capped retrieval boost `Math.min(25, Math.round(ragBoost / 3))`.
The knowledge-base data file is not part of the sources; modelled from the
spec, the aggregate `kbRiskBoost` (a sum of per-entry additive risk boosts)
is a non-negative integer. -/
def ragBoostTerm (ragBoost : Nat) : ℤ :=
  min 25 (jsRound ((ragBoost : ℚ) / 3))

/-- The heuristic-only (fallback) final score pipeline of `POST`: retrieval
boost, knowledge-base minimum-risk floor (skipped when zero, as the source
tests JavaScript truthiness), then the mismatch floor of 70. -/
def finalFallbackScore (h : Nat) (ragBoost ragMinRisk : Nat)
    (mismatch : Bool) : ℤ :=
  let s1 : ℤ := min 100 ((h : ℤ) + ragBoostTerm ragBoost)
  let s2 : ℤ := if ragMinRisk ≠ 0 then max s1 (ragMinRisk : ℤ) else s1
  if mismatch then max s2 70 else s2

/-- The blended final score pipeline of `POST`:
`Math.round(0.55 * ai.risk_score + 0.45 * heuristic)` then the same three
adjustments as the fallback pipeline. -/
def blendedScore (aiScore : ℚ) (h : Nat) (ragBoost ragMinRisk : Nat)
    (mismatch : Bool) : ℤ :=
  let b0 : ℤ := jsRound ((0.55 : ℚ) * aiScore + (0.45 : ℚ) * (h : ℚ))
  let b1 : ℤ := min 100 (b0 + ragBoostTerm ragBoost)
  let b2 : ℤ := if ragMinRisk ≠ 0 then max b1 (ragMinRisk : ℤ) else b1
  if mismatch then max b2 70 else b2

/-- The schema-validated external-model response (`AnalyzeSchema`). -/
structure AiResult where
  risk_score : ℚ
  verdict : Verdict
  tactics : List Tactic
  suspicious_spans : List Span
  extracted : Extracted
  attack_types : List AttackType
  next_steps : List (List Char)
  safe_reply : List Char
  summary : List Char
deriving DecidableEq

/-- The final `AnalysisResult` returned to the caller. -/
structure AnalysisResult where
  risk_score : ℤ
  verdict : Verdict
  tactics : List Tactic
  suspicious_spans : List Span
  extracted : Extracted
  attack_types : List AttackType
  next_steps : List (List Char)
  safe_reply : List Char
  summary : List Char
deriving DecidableEq

/-- `workEmailAdvice()` from the analyze route. -/
def workEmailAdvice : List (List Char) :=
  [ "Do not click links or open attachments from this email.".toList,
    "Verify via an official channel (company directory/known number/official portal) — not by replying.".toList,
    "Never share passwords, MFA/OTP codes, or approve unexpected sign-in prompts.".toList,
    "Report it to your security/IT team using the phishing report button or a ticket.".toList,
    "If you already clicked, change passwords via the official portal and notify IT immediately.".toList ]

/-- `personalEmailAdvice()` from the analyze route. -/
def personalEmailAdvice : List (List Char) :=
  [ "Don’t click links or download files from the message.".toList,
    "Open the official app/site directly to verify (don’t use the message link).".toList,
    "Never share OTP codes, passwords, or banking information.".toList,
    "Block/report the sender as spam/phishing.".toList ]

/-- The social-kind next steps of the fallback result. -/
def socialAdvice : List (List Char) :=
  [ "Don’t reshare immediately — verify via reliable sources.".toList,
    "Watch for engagement bait language.".toList,
    "Report impersonation/scam content.".toList ]

/-- The text-kind next steps of the fallback result. -/
def textAdvice : List (List Char) :=
  [ "Don’t click links or share codes.".toList,
    "Verify via official app/site.".toList,
    "Block/report if suspicious.".toList ]

/-- The tab-switch instruction that heads the mismatch next steps. -/
def tabSwitchMsg : List Char :=
  "This doesn’t look like an email — switch to Social (or Text) tab for accurate analysis.".toList

/-- The next steps used by `POST` when a kind mismatch is detected. -/
def mismatchSteps : List (List Char) :=
  [ tabSwitchMsg,
    "Do not reshare. Virality pressure is a manipulation tactic.".toList,
    "Avoid ‘link in bio’/short links; verify with trusted sources.".toList,
    "Report/block the account if it pushes money or secrecy.".toList ]

/-- Canned safe reply for work email mode. -/
def workReply : List Char :=
  "I can’t act on this request. I’ll verify through official company channels before doing anything.".toList

/-- Canned safe reply for personal email mode. -/
def personalReply : List Char :=
  "I can’t act on this request. I’ll verify through the official website/app.".toList

/-- Canned safe reply for non-email kinds. -/
def genericReply : List Char :=
  "I can’t act on this. I’ll verify through official channels first.".toList

/-- Fallback summary when a kind mismatch is detected. -/
def mismatchSummary : List Char :=
  "This doesn’t look like an email — it reads like a viral/social post (engagement bait + unrealistic money claims). Treat as high-risk spam.".toList

/-- Fallback summary for scores of at least 35. -/
def cautionSummary : List Char :=
  "This message shows common scam patterns and should be treated with caution.".toList

/-- Fallback summary for scores below 35. -/
def lowSummary : List Char :=
  "This message has low scam indicators based on quick checks.".toList

/-- The summary prefix added on the blended path when the model summary does
not mention the mismatch. -/
def mismatchPrefix : List Char :=
  "This doesn’t look like an email format. ".toList

/-- JavaScript `a || b` on an optional string: the empty string is falsy.
The left operand `kbHits[0]?.safe_reply_template` comes from the
knowledge-base data file, which is not part of the sources; modelled from
the spec as an optional template string. -/
def orFalsy (kbSafe : Option (List Char)) (dflt : List Char) : List Char :=
  match kbSafe with
  | some s => if s = [] then dflt else s
  | none => dflt

/-- First-occurrence-order dedup, modelling `Array.from(new Set(xs))`. -/
def setDedupAux (seen : List (List Char)) :
    List (List Char) → List (List Char)
  | [] => []
  | a :: l =>
    if a ∈ seen then setDedupAux seen l
    else a :: setDedupAux (a :: seen) l

/-- `Array.from(new Set(xs))`. -/
def setDedup (l : List (List Char)) : List (List Char) := setDedupAux [] l

/-- The heuristic-only fallback `AnalysisResult` built by `POST`
(the `fallback` object of the source), parameterized by the knowledge-base
aggregates `ragBoost`, `ragMinRisk` and the optional first-hit safe-reply
template, which come from the data file absent from the sources
(modelled from the spec). -/
def mkFallback (req : AnalyzeRequest) (ragBoost ragMinRisk : Nat)
    (kbSafeReply : Option (List Char)) : AnalysisResult :=
  let mismatch := kindMismatch req
  let signals := extractSignals req.text
  let score := finalFallbackScore signals.heuristic_score ragBoost ragMinRisk
    mismatch
  ⟨score,
   verdictFromScore score,
   signals.heuristic_tactics,
   signals.suspicious_spans,
   ⟨signals.urls, signals.phone_numbers, signals.emails⟩,
   buildAttackTypesHeuristic req.kind req.text signals.urls,
   (if mismatch then mismatchSteps
    else match req.kind with
    | Kind.email =>
      (match req.emailMode with
       | some EmailMode.work => workEmailAdvice
       | _ => personalEmailAdvice)
    | Kind.social => socialAdvice
    | Kind.text => textAdvice),
   orFalsy kbSafeReply
     (match req.kind with
      | Kind.email =>
        (match req.emailMode with
         | some EmailMode.work => workReply
         | _ => personalReply)
      | _ => genericReply),
   (if mismatch then mismatchSummary
    else if 35 ≤ score then cautionSummary else lowSummary)⟩

/-- The blended `AnalysisResult` built by `POST` from a schema-valid model
response `ai` (the final `NextResponse.json({...ai, ...})` of the source). -/
def mkBlended (req : AnalyzeRequest) (ai : AiResult)
    (ragBoost ragMinRisk : Nat) (kbSafeReply : Option (List Char)) :
    AnalysisResult :=
  let mismatch := kindMismatch req
  let signals := extractSignals req.text
  let blended := blendedScore ai.risk_score signals.heuristic_score ragBoost
    ragMinRisk mismatch
  let summary :=
    if mismatch &&
        !containsStr (jsToLower ai.summary)
          "doesn’t look like an email".toList &&
        !containsStr (jsToLower ai.summary)
          ("doesn".toList ++ [apoC] ++ "t look like an email".toList) then
      mismatchPrefix ++ ai.summary
    else ai.summary
  ⟨blended,
   verdictFromScore blended,
   ai.tactics,
   (if ai.suspicious_spans.length ≠ 0 then ai.suspicious_spans
    else signals.suspicious_spans),
   ⟨(setDedup (ai.extracted.urls ++ signals.urls)).take 40,
    (setDedup (ai.extracted.phone_numbers ++ signals.phone_numbers)).take 40,
    (setDedup (ai.extracted.emails ++ signals.emails)).take 40⟩,
   (if ai.attack_types.length ≠ 0 then ai.attack_types
    else buildAttackTypesHeuristic req.kind req.text signals.urls).take 6,
   (if mismatch then (mismatchSteps ++ ai.next_steps).take 10
    else ai.next_steps.take 10),
   orFalsy kbSafeReply ai.safe_reply,
   summary⟩

/-- Outcome of the external model call, as observed by the handler after the
call returns: the raw content either fails `JSON.parse`, parses but fails the
`AnalyzeSchema` validation, or yields a schema-valid result. -/
inductive ModelOutcome where
  | parseFail
  | schemaFail
  | valid (ai : AiResult)
deriving DecidableEq

/-- A response from the handler: a JSON analysis result, or the
`{ error: ... }` payload with status 400 produced by the catch block. -/
inductive ApiResponse where
  | ok (r : AnalysisResult)
  | err
deriving DecidableEq

/-- The decision structure of `POST` after the request body has been
validated: without a configured client the fallback is returned; otherwise
the model is consulted and `JSON.parse(raw)` / `AnalyzeSchema.parse(parsed)`
run inside the outer `try`, so either failure is caught by the outer catch
block, which returns the 400 error response. -/
def postRespond (fb : AnalysisResult) (blend : AiResult → AnalysisResult)
    (hasClient : Bool) (m : ModelOutcome) : ApiResponse :=
  if hasClient = false then ApiResponse.ok fb
  else
    match m with
    | ModelOutcome.parseFail => ApiResponse.err
    | ModelOutcome.schemaFail => ApiResponse.err
    | ModelOutcome.valid ai => ApiResponse.ok (blend ai)

/-! ## Concrete inputs used by witnesses and counterexamples -/

/-- The S1 scenario text of the spec. -/
def s1Text : List Char :=
  "Your account will be locked in 30 minutes. Verify immediately: https://bit.ly/lock-verify".toList

/-- The S1 scenario request (kind `text`). -/
def reqS1 : AnalyzeRequest := ⟨Kind.text, s1Text, none⟩

/-- A text in which two dictionary phrases match in adjacent positions. -/
def reqAdj : AnalyzeRequest := ⟨Kind.text, "irsbank".toList, none⟩

/-- An email-kind request whose text is social bait with no email marker. -/
def reqMismatch : AnalyzeRequest := ⟨Kind.email, "repost this now".toList, none⟩

/-- A plain text request used for the model-failure counterexample. -/
def reqPlain : AnalyzeRequest :=
  ⟨Kind.text, "please send payment now".toList, none⟩

/-- The claim-C5 failing input: U+0130 followed by " bank".  Its
`toLowerCase` copy is one code unit longer than the original, because
U+0130 lowercases to `i` + U+0307. -/
def bugText : List Char := [capIDot] ++ " bank".toList

/-- A fixed schema-valid model response used by witnesses. -/
def aiSample : AiResult :=
  ⟨50, Verdict.suspicious, [], [], ⟨[], [], []⟩, [], [], [], []⟩



/-! ## Lemmas about the span locator -/

theorem indexOfAux_some (needle : List Char) :
    ∀ (s : List Char) (pos found : Nat),
      indexOfAux needle s pos = some found →
        pos ≤ found ∧ found - pos ≤ s.length ∧
          startsWithL needle (s.drop (found - pos)) = true := by
  intro s
  induction s with
  | nil =>
    intro pos found h
    unfold indexOfAux at h
    split at h
    · obtain rfl : pos = found := by injection h
      simpa using by assumption
    · simp at h
  | cons c t ih =>
    intro pos found h
    unfold indexOfAux at h
    split at h
    · obtain rfl : pos = found := by injection h
      simpa using by assumption
    · have := ih (pos + 1) found h
      refine ⟨by omega, by simp; omega, ?_⟩
      have hd : (c :: t).drop (found - pos) = t.drop (found - (pos + 1)) := by
        have h1 : found - pos = (found - (pos + 1)) + 1 := by omega
        rw [h1]
        rfl
      rw [hd]
      exact this.2.2

theorem indexOfFrom_some (hay needle : List Char) (idx found : Nat)
    (h : indexOfFrom hay needle idx = some found) :
    idx ≤ found ∧ found ≤ hay.length ∧
      startsWithL needle (hay.drop found) = true := by
  unfold indexOfFrom at h
  split at h
  · rename_i hle
    have ha := indexOfAux_some needle (hay.drop idx) idx found h
    have hdl : (hay.drop idx).length = hay.length - idx :=
      List.length_drop _ _
    have hd : (hay.drop idx).drop (found - idx) = hay.drop found := by
      rw [List.drop_drop]
      congr 1
      omega
    exact ⟨ha.1, by omega, by rw [← hd]; exact ha.2.2⟩
  · simp at h

theorem phraseSpans_mem (lower needle label reason : List Char) :
    ∀ (remaining idx : Nat) (sp : Span),
      sp ∈ (phraseSpans lower needle label reason idx remaining).1 →
        idx ≤ sp.start ∧ sp.stop = sp.start + needle.length ∧
          sp.start ≤ lower.length ∧
          startsWithL needle (lower.drop sp.start) = true := by
  intro remaining
  induction remaining with
  | zero => intro idx sp hm; simp [phraseSpans] at hm
  | succ rem ih =>
    intro idx sp hm
    unfold phraseSpans at hm
    split at hm
    · simp at hm
    · rename_i found heq
      have hf := indexOfFrom_some lower needle idx found heq
      split at hm
      · simp at hm
        subst hm
        exact ⟨hf.1, rfl, hf.2.1, hf.2.2⟩
      · simp only [List.mem_cons] at hm
        rcases hm with rfl | hm2
        · exact ⟨hf.1, rfl, hf.2.1, hf.2.2⟩
        · have h2 := ih (found + needle.length) sp hm2
          exact ⟨by omega, h2.2⟩

theorem phraseSpans_pairwise (lower needle label reason : List Char) :
    ∀ (remaining idx : Nat),
      ((phraseSpans lower needle label reason idx remaining).1).Pairwise
        (fun a b => a.start + needle.length ≤ b.start) := by
  intro remaining
  induction remaining with
  | zero => intro idx; simp [phraseSpans]
  | succ rem ih =>
    intro idx
    unfold phraseSpans
    split
    · simp
    · rename_i found heq
      split
      · simp
      · refine List.Pairwise.cons ?_ (ih (found + needle.length))
        intro b hb
        have hmem := phraseSpans_mem lower needle label reason rem
          (found + needle.length) b hb
        show found + needle.length ≤ b.start
        exact hmem.1

theorem phraseSpans_bound (lower needle label reason : List Char) :
    ∀ (remaining idx : Nat),
      (phraseSpans lower needle label reason idx remaining).1.length ≤
          remaining ∧
        ((phraseSpans lower needle label reason idx remaining).2 = false →
          (phraseSpans lower needle label reason idx remaining).1.length
            < remaining) := by
  intro remaining
  induction remaining with
  | zero => intro idx; simp [phraseSpans]
  | succ rem ih =>
    intro idx
    unfold phraseSpans
    split
    · simp
    · rename_i found heq
      split
      · rename_i hz
        simp
      · rename_i hz
        have h2 := ih (found + needle.length)
        simp only [List.length_cons]
        exact ⟨by omega, fun hf => by have := h2.2 hf; omega⟩

theorem findSpansAux_length (lower : List Char) (phrases : List SpanPhrase) :
    ∀ remaining, (findSpansAux lower phrases remaining).length ≤ remaining := by
  induction phrases with
  | nil => intro remaining; simp [findSpansAux]
  | cons p rest ih =>
    intro remaining
    unfold findSpansAux
    dsimp only
    have hb := phraseSpans_bound lower (jsToLower p.phrase) p.label p.reason
      remaining 0
    split
    · exact hb.1
    · rename_i h2
      have hlt := hb.2 (by simpa using h2)
      have hrest := ih (remaining -
        (phraseSpans lower (jsToLower p.phrase) p.label p.reason
          0 remaining).1.length)
      simp only [List.length_append]
      omega

theorem findSpans_single (text : List Char) (p : SpanPhrase) :
    findSpans text [p] =
      (phraseSpans (jsToLower text) (jsToLower p.phrase) p.label p.reason
        0 40).1 := by
  unfold findSpans findSpansAux
  dsimp only
  split
  · rfl
  · simp [findSpansAux]

/-! ## Claim theorems -/

theorem jsToLower_length_pos (l : List Char) (h : l ≠ []) :
    0 < (jsToLower l).length := by
  cases l with
  | nil => simp at h
  | cons c t =>
    show 0 < ((jsLowerChar c :: t.map jsLowerChar).flatten).length
    rw [List.flatten_cons, List.length_append]
    have hc : 0 < (jsLowerChar c).length := by
      unfold jsLowerChar
      split <;> simp
    omega

/-- Claim C10: for a single non-empty dictionary phrase, the located spans
all have the length of the lowercased phrase, and they are strictly ordered
and pairwise non-overlapping (each search resumes at the previous match
end).  Both the spans and the phrase length refer, as in the source, to the
`toLowerCase` copy in which the search runs. -/
theorem c10_single_phrase_spans (text : List Char) (p : SpanPhrase)
    (hp : p.phrase ≠ []) :
    (∀ s ∈ findSpans text [p],
      s.stop - s.start = (jsToLower p.phrase).length) ∧
      (findSpans text [p]).Pairwise
        (fun a b => a.start < b.start ∧ a.stop ≤ b.start) := by
  rw [findSpans_single]
  have hnz : 0 < (jsToLower p.phrase).length := jsToLower_length_pos p.phrase hp
  constructor
  · intro s hs
    have h := phraseSpans_mem (jsToLower text) (jsToLower p.phrase) p.label
      p.reason 40 0 s hs
    omega
  · have hpw := phraseSpans_pairwise (jsToLower text) (jsToLower p.phrase)
      p.label p.reason 40 0
    refine hpw.imp_of_mem ?_
    intro a b ha hb hr
    have hA := phraseSpans_mem (jsToLower text) (jsToLower p.phrase) p.label
      p.reason 40 0 a ha
    exact ⟨by omega, by omega⟩

/-- Witness for C10 at a text with two occurrences of `urgent`. -/
theorem c10_single_phrase_spans_witness :
    ("urgent".toList ≠ ([] : List Char)) ∧
      ((∀ s ∈ findSpans "most urgent urgent case".toList
          [⟨"Urgency".toList, "urgent".toList,
            "High-pressure wording.".toList⟩],
          s.stop - s.start = (jsToLower "urgent".toList).length) ∧
        (findSpans "most urgent urgent case".toList
          [⟨"Urgency".toList, "urgent".toList,
            "High-pressure wording.".toList⟩]).Pairwise
          (fun a b => a.start < b.start ∧ a.stop ≤ b.start)) :=
  ⟨by decide,
    c10_single_phrase_spans "most urgent urgent case".toList
      ⟨"Urgency".toList, "urgent".toList, "High-pressure wording.".toList⟩
      (by decide)⟩

/-- Claim C5 (code bug): the source computes `lower = text.toLowerCase()`
and exposes `indexOf` positions in `lower` as spans into the original text,
but lowering can change the length: on `bugText` (six code units) the
lowered copy has seven code units, `findSpans` emits the span `[3,7)` for
the phrase `bank`, that span's end exceeds the length of the original text,
and the denoted original-text substring is not the matched phrase (`bank`
occupies `[2,6)` of the original). -/
theorem c5_span_offsets_bug :
    ((extractSignals bugText).suspicious_spans.map fun s => (s.start, s.stop))
        = [(3, 7)] ∧
      bugText.length = 6 ∧
      (¬ ∀ s ∈ (extractSignals bugText).suspicious_spans,
        s.stop ≤ bugText.length) ∧
      ¬ (((bugText.drop 3).take 4).map Char.toLower =
        "bank".toList.map Char.toLower) := by
  refine ⟨by decide, by decide, by decide, by decide⟩

/-- Counterexample for claim C4: on the text `irsbank` the exposed
suspicious-span list of the heuristic fallback result contains the spans
`[3,7)` (phrase `bank`) and `[0,3)` (phrase `irs`), which are adjacent
(`stop` of one equals `start` of the other) and are not merged. -/
theorem c4_spans_not_merged_cex :
    ((mkFallback reqAdj 0 0 none).suspicious_spans.map
        fun s => (s.start, s.stop)) = [(3, 7), (0, 3)] ∧
      ¬ ((mkFallback reqAdj 0 0 none).suspicious_spans.Pairwise
        fun a b => a.stop < b.start ∨ b.stop < a.start) := by
  constructor
  · decide
  · decide

/-- Claim C4 (amended): the exposed span list is not merged — adjacent or
overlapping spans may both appear — but it is globally capped at 40 spans. -/
theorem c4_spans_capped (text : List Char) (phrases : List SpanPhrase) :
    (findSpans text phrases).length ≤ 40 := by
  have h := findSpansAux_length (jsToLower text) phrases 40
  unfold findSpans
  omega

/-- Claim C2: `verdictFromScore` assigns `dangerous` exactly on scores `≥ 70`,
`suspicious` exactly on `35 ≤ score < 70`, `harmless` exactly on `score < 35`,
and both the fallback and the blended result carry the verdict of their own
final risk score. -/
theorem c2_verdict_thresholds :
    (∀ s : Int,
      (verdictFromScore s = Verdict.dangerous ↔ 70 ≤ s) ∧
        (verdictFromScore s = Verdict.suspicious ↔ 35 ≤ s ∧ s < 70) ∧
        (verdictFromScore s = Verdict.harmless ↔ s < 35)) ∧
      (∀ req b m kb, (mkFallback req b m kb).verdict =
        verdictFromScore (mkFallback req b m kb).risk_score) ∧
      (∀ req ai b m kb, (mkBlended req ai b m kb).verdict =
        verdictFromScore (mkBlended req ai b m kb).risk_score) := by
  refine ⟨fun s => ?_, fun req b m kb => rfl, fun req ai b m kb => rfl⟩
  unfold verdictFromScore
  split_ifs with h1 h2
  · exact ⟨iff_of_true rfl h1,
      iff_of_false (by simp) (by omega),
      iff_of_false (by simp) (by omega)⟩
  · exact ⟨iff_of_false (by simp) (by omega),
      iff_of_true rfl ⟨h2, by omega⟩,
      iff_of_false (by simp) (by omega)⟩
  · exact ⟨iff_of_false (by simp) (by omega),
      iff_of_false (by simp) (by omega),
      iff_of_true rfl (by omega)⟩

/-- Counterexample for claim C1: with a configured client, a model reply
whose content fails `JSON.parse` reaches the outer catch block, so the
handler answers with the 400 error response instead of the fallback
result. -/
theorem c1_model_failure_cex :
    postRespond (mkFallback reqPlain 0 0 none)
        (fun ai => mkBlended reqPlain ai 0 0 none) true
        ModelOutcome.parseFail = ApiResponse.err ∧
      ApiResponse.err ≠ ApiResponse.ok (mkFallback reqPlain 0 0 none) := by
  exact ⟨rfl, by simp⟩

/-- Claim C1 (amended): the handler returns the heuristic fallback whenever
the credential is missing (for every model outcome), and returns the blended
result on a schema-valid model reply; but with a configured client a reply
failing `JSON.parse` or failing schema validation is answered with the 400
error response, not the fallback. -/
theorem c1_fallback_policy :
    (∀ (fb : AnalysisResult) (blend : AiResult → AnalysisResult)
        (m : ModelOutcome), postRespond fb blend false m = ApiResponse.ok fb) ∧
      (∀ (fb : AnalysisResult) (blend : AiResult → AnalysisResult)
        (ai : AiResult), postRespond fb blend true (ModelOutcome.valid ai) =
          ApiResponse.ok (blend ai)) ∧
      (∀ (fb : AnalysisResult) (blend : AiResult → AnalysisResult),
        postRespond fb blend true ModelOutcome.parseFail = ApiResponse.err ∧
          postRespond fb blend true ModelOutcome.schemaFail =
            ApiResponse.err) :=
  ⟨fun _ _ _ => rfl, fun _ _ _ => rfl, fun _ _ => ⟨rfl, rfl⟩⟩

/-- Claim C3: for a request of kind `email` whose text has no email-like
marker but contains a social-bait phrase, both the fallback and the blended
result carry a risk score of at least 70 and their next steps contain the
tab-switch instruction. -/
theorem c3_mismatch_floor (req : AnalyzeRequest) (b m : Nat)
    (kb : Option (List Char)) (ai : AiResult)
    (hk : req.kind = Kind.email)
    (he : looksLikeEmail req.text = false)
    (hs : looksLikeSocial req.text = true) :
    (70 ≤ (mkFallback req b m kb).risk_score ∧
      tabSwitchMsg ∈ (mkFallback req b m kb).next_steps) ∧
      (70 ≤ (mkBlended req ai b m kb).risk_score ∧
        tabSwitchMsg ∈ (mkBlended req ai b m kb).next_steps) := by
  have hmm : kindMismatch req = true := by
    unfold kindMismatch
    rw [hk, he, hs]
    rfl
  constructor
  · constructor
    · show 70 ≤ finalFallbackScore (extractSignals req.text).heuristic_score
        b m (kindMismatch req)
      rw [hmm]
      unfold finalFallbackScore
      dsimp only
      rw [if_pos rfl]
      exact le_max_right _ _
    · show tabSwitchMsg ∈
        (if kindMismatch req then mismatchSteps
         else match req.kind with
         | Kind.email =>
           (match req.emailMode with
            | some EmailMode.work => workEmailAdvice
            | _ => personalEmailAdvice)
         | Kind.social => socialAdvice
         | Kind.text => textAdvice)
      rw [hmm]
      simp [mismatchSteps]
  · constructor
    · show 70 ≤ blendedScore ai.risk_score
        (extractSignals req.text).heuristic_score b m (kindMismatch req)
      rw [hmm]
      unfold blendedScore
      dsimp only
      rw [if_pos rfl]
      exact le_max_right _ _
    · show tabSwitchMsg ∈
        (if kindMismatch req then (mismatchSteps ++ ai.next_steps).take 10
         else ai.next_steps.take 10)
      rw [hmm]
      simp [mismatchSteps, tabSwitchMsg]

/-- Witness for C3 at a concrete social-bait text sent as kind `email`. -/
theorem c3_mismatch_floor_witness :
    (reqMismatch.kind = Kind.email ∧
      looksLikeEmail reqMismatch.text = false ∧
      looksLikeSocial reqMismatch.text = true) ∧
      ((70 ≤ (mkFallback reqMismatch 0 0 none).risk_score ∧
        tabSwitchMsg ∈ (mkFallback reqMismatch 0 0 none).next_steps) ∧
        (70 ≤ (mkBlended reqMismatch aiSample 0 0 none).risk_score ∧
          tabSwitchMsg ∈ (mkBlended reqMismatch aiSample 0 0 none).next_steps)) :=
  ⟨⟨rfl, by decide, by decide⟩,
    c3_mismatch_floor reqMismatch 0 0 none aiSample rfl (by decide) (by decide)⟩

/-! ## Score-bound lemmas and remaining claims -/

theorem jsRound_nonneg (q : ℚ) (h : 0 ≤ q) : 0 ≤ jsRound q := by
  unfold jsRound
  rw [Int.le_floor]
  push_cast
  linarith

theorem jsRound_le_100 (q : ℚ) (h : q ≤ 100) : jsRound q ≤ 100 := by
  unfold jsRound
  have hlt : (⌊q + 1 / 2⌋ : Int) < 101 := by
    rw [Int.floor_lt]
    push_cast
    linarith
  omega

theorem ragBoostTerm_nonneg (b : Nat) : 0 ≤ ragBoostTerm b := by
  unfold ragBoostTerm
  have h := jsRound_nonneg ((b : ℚ) / 3) (by positivity)
  omega

theorem ragBoostTerm_le_25 (b : Nat) : ragBoostTerm b ≤ 25 := by
  unfold ragBoostTerm
  omega

theorem heuristic_score_le_100 (t : List Char) :
    (extractSignals t).heuristic_score ≤ 100 := by
  show min 100 _ ≤ 100
  exact Nat.min_le_left _ _

/-- Claim C8: both final-score pipelines stay within `[0, 100]`, for every
input text, every non-negative knowledge-base boost, every minimum-risk
floor of at most 100 (the knowledge-base data carries risk values on the
0–100 scale), every mismatch flag, and every schema-valid model score. -/
theorem c8_score_bounds (t : List Char) (b m : Nat) (mis : Bool) (ai : ℚ)
    (hm : m ≤ 100) (h0 : 0 ≤ ai) (h1 : ai ≤ 100) :
    (0 ≤ finalFallbackScore (extractSignals t).heuristic_score b m mis ∧
      finalFallbackScore (extractSignals t).heuristic_score b m mis ≤ 100) ∧
      (0 ≤ blendedScore ai (extractSignals t).heuristic_score b m mis ∧
        blendedScore ai (extractSignals t).heuristic_score b m mis ≤ 100) := by
  have hh := heuristic_score_le_100 t
  have hbt0 := ragBoostTerm_nonneg b
  have hbt1 := ragBoostTerm_le_25 b
  constructor
  · unfold finalFallbackScore
    dsimp only
    split_ifs <;> constructor <;> omega
  · unfold blendedScore
    dsimp only
    have hr0 : 0 ≤ jsRound ((0.55 : ℚ) * ai +
        (0.45 : ℚ) * ((extractSignals t).heuristic_score : ℚ)) := by
      apply jsRound_nonneg
      positivity
    have hr1 : jsRound ((0.55 : ℚ) * ai +
        (0.45 : ℚ) * ((extractSignals t).heuristic_score : ℚ)) ≤ 100 := by
      apply jsRound_le_100
      have hhq : ((extractSignals t).heuristic_score : ℚ) ≤ 100 := by
        exact_mod_cast hh
      linarith
    split_ifs <;> constructor <;> omega

/-- Witness for C8 at a concrete benign text and model score 50. -/
theorem c8_score_bounds_witness :
    ((0 : Nat) ≤ 100 ∧ (0 : ℚ) ≤ 50 ∧ (50 : ℚ) ≤ 100) ∧
      ((0 ≤ finalFallbackScore
          (extractSignals "hello there".toList).heuristic_score 0 0 false ∧
        finalFallbackScore
          (extractSignals "hello there".toList).heuristic_score 0 0 false
            ≤ 100) ∧
        (0 ≤ blendedScore 50
          (extractSignals "hello there".toList).heuristic_score 0 0 false ∧
          blendedScore 50
            (extractSignals "hello there".toList).heuristic_score 0 0 false
              ≤ 100)) :=
  ⟨⟨by omega, by norm_num, by norm_num⟩,
    c8_score_bounds "hello there".toList 0 0 false 50 (by omega)
      (by norm_num) (by norm_num)⟩

theorem score_eq_scoreOfFlags (t : List Char) :
    (extractSignals t).heuristic_score = scoreOfFlags (signalFlags t) := by
  simp only [extractSignals, signalFlags, scoreOfFlags, decide_eq_true_eq]

/-- Claim C9: the heuristic score depends only on which categories are
present (each category contributes its weight at most once): two texts with
identical category-presence indicators get identical heuristic scores. -/
theorem c9_presence_not_count (t1 t2 : List Char)
    (h : signalFlags t1 = signalFlags t2) :
    (extractSignals t1).heuristic_score =
      (extractSignals t2).heuristic_score := by
  rw [score_eq_scoreOfFlags, score_eq_scoreOfFlags, h]

/-- Witness for C9: two different texts triggering exactly the urgency
category get the same score. -/
theorem c9_presence_not_count_witness :
    signalFlags "urgent".toList = signalFlags "act now".toList ∧
      (extractSignals "urgent".toList).heuristic_score =
        (extractSignals "act now".toList).heuristic_score :=
  ⟨by decide, c9_presence_not_count "urgent".toList "act now".toList
    (by decide)⟩

/-- Claim C7: on the S1 scenario input (kind `text`), the heuristic score is
exactly 46 = 16 (urls) + 10 (shortened link) + 10 (urgency) + 10 (fear);
with no knowledge-base contribution the returned score is 46 and the verdict
`suspicious`; the tactic list contains `Urgency` and `Fear`; and the
extracted URLs contain the `bit.ly` link. -/
theorem c7_s1_scenario :
    (extractSignals s1Text).heuristic_score = 46 ∧
      (mkFallback reqS1 0 0 none).risk_score = 46 ∧
      (mkFallback reqS1 0 0 none).verdict = Verdict.suspicious ∧
      "Urgency".toList ∈ (mkFallback reqS1 0 0 none).tactics.map Tactic.name ∧
      "Fear".toList ∈ (mkFallback reqS1 0 0 none).tactics.map Tactic.name ∧
      "https://bit.ly/lock-verify".toList ∈
        (mkFallback reqS1 0 0 none).extracted.urls := by
  have hh : (extractSignals s1Text).heuristic_score = 46 := by decide
  have hb : ragBoostTerm 0 = 0 := by
    unfold ragBoostTerm jsRound
    norm_num
  have hmm : kindMismatch reqS1 = false := by decide
  have hrisk : (mkFallback reqS1 0 0 none).risk_score = 46 := by
    show finalFallbackScore (extractSignals s1Text).heuristic_score 0 0
      (kindMismatch reqS1) = 46
    rw [hmm, hh]
    unfold finalFallbackScore
    dsimp only
    rw [hb]
    norm_num
  refine ⟨hh, hrisk, ?_, by decide, by decide, by decide⟩
  show verdictFromScore ((mkFallback reqS1 0 0 none).risk_score) =
    Verdict.suspicious
  rw [hrisk]
  decide
